import Mathlib

/-!
Shallow embedding of `src/scraper.py` (an Amazon product scraper): the
price normalizer `format_price`, the blocking detector
`AmazonScraper._is_blocked`, the per-listing field extractor
`AmazonScraper._extract_product_data`, the pagination loop of
`AmazonScraper._scrape_page` and `AmazonScraper.scrape`, and the
SQLite-backed deduplicating `save_to_db`, together with theorems settling
the specification's claims about them.

DOM access is modelled as a partial map from CSS-selector strings to
elements; the browser is modelled as a list of abstract page states; the
SQLite table created by `init_db` is modelled as a list of rows, with the
`product_url TEXT UNIQUE` column constraint made explicit (a violated
insert raises `sqlite3.IntegrityError`, i.e. returns `none`, and the
enclosing connection is closed without commit, rolling the call back).
-/

namespace Scraper

/-- Character-list test that `pat` occurs at the start of `s`
(the building block of the Python `in` substring test). -/
def charsStartWith : List Char → List Char → Bool
  | [], _ => true
  | _ :: _, [] => false
  | p :: ps, c :: cs => p = c && charsStartWith ps cs

/-- Character-list test that `pat` occurs somewhere inside `s`. -/
def charsContain (pat : List Char) : List Char → Bool
  | [] => charsStartWith pat []
  | c :: cs => charsStartWith pat (c :: cs) || charsContain pat cs

/-- The Python substring test `pat in s` on strings. -/
def substringOf (pat s : String) : Bool :=
  charsContain pat.toList s.toList

/-- Python's ASCII whitespace class for `str.strip()`. -/
def pyIsSpace (c : Char) : Bool :=
  c = ' ' || c = '\t' || c = '\n' || c = '\r' || c = '\x0b' || c = '\x0c'

/-- Python `s.strip()`: drop whitespace from both ends. -/
def pyStrip (s : String) : String :=
  String.mk (((s.toList.dropWhile pyIsSpace).reverse.dropWhile pyIsSpace).reverse)

/-- Python `s.lower()` (ASCII case folding suffices for the scraper's
markers, which are all ASCII). -/
def pyLower (s : String) : String :=
  String.mk (s.toList.map Char.toLower)

/-- The characters of `s` before the first occurrence of `pat`; the whole
of `s` when `pat` does not occur.  This is Python `s.split(pat)[0]`. -/
def takeBefore (pat : List Char) : List Char → List Char
  | [] => []
  | c :: cs => if charsStartWith pat (c :: cs) then [] else c :: takeBefore pat cs

/-- `format_price` from `src/scraper.py` (the spec's `normalize_price`):
returns `"N/A"` when the input is falsy (the empty string) or already
`"N/A"`, and otherwise the stripped input text. -/
def format_price (price_text : String) : String :=
  if price_text = "" ∨ price_text = "N/A" then "N/A" else pyStrip price_text

/-- The fixed block-signature phrases of `AmazonScraper._is_blocked`. -/
def blocked_signs : List String :=
  ["sorry, something went wrong", "captcha", "api-services-support@amazon.com"]

/-- `AmazonScraper._is_blocked`, as a pure function of the page source the
method reads from the driver (the method lowercases it first). -/
def is_blocked (page_source_raw : String) : Bool :=
  let page_source := pyLower page_source_raw
  let has_block_sign := blocked_signs.any (fun x => substringOf x page_source)
  let has_no_results :=
    !(substringOf "s-search-result" page_source) && !(substringOf "s-result-item" page_source)
  has_block_sign || (has_no_results && substringOf "robot" page_source)

/-- A located DOM element, carrying exactly the reads the extractor makes
of it.  Selenium's `.text` and the `innerHTML` property are always
strings; `get_attribute` on `href`, `aria-label` and `src` may return
null, hence `Option`. -/
structure Element where
  text : String
  innerHTML : String
  href : Option String
  ariaLabel : Option String
  src : Option String
deriving DecidableEq

/-- A listing node (one `[data-component-type=s-search-result]` subtree):
`find_element(By.CSS_SELECTOR, sel)` as a partial map from selector
strings to elements, `none` modelling `NoSuchElementException`. -/
structure ListingNode where
  find : String → Option Element

/-- The record `_extract_product_data` returns.  `image_url` is an
`Option` because `get_attribute("src")` may be null in Python even when
the image selector matched. -/
structure ProductRecord where
  title : String
  price : String
  rating : String
  review_count : String
  sold_count : String
  product_url : String
  image_url : Option String
  keyword : String
deriving DecidableEq

/-- The inner `safe_extract` helper of `_extract_product_data`. -/
def safe_extract (product : ListingNode) (selector : String) (attr : String) : String :=
  match product.find selector with
  | some el => if attr = "innerHTML" then el.innerHTML else el.text
  | none => "N/A"

/-- Predicate of the regex class of `re.findall(r'[\d,]+', ...)`. -/
def isDigitOrComma (c : Char) : Bool := c.isDigit || c = ','

/-- The first maximal run matched by the regex, i.e. `findall(...)[0]`. -/
def firstDigitCommaRun : List Char → Option String
  | [] => none
  | c :: cs =>
      if isDigitOrComma c then some (String.mk (c :: cs.takeWhile isDigitOrComma))
      else firstDigitCommaRun cs

/-- The review-count block of `_extract_product_data`: first digit-or-comma
run of the review link's `aria-label`, defaulting to `"0"`. -/
def extract_review_count (product : ListingNode) : String :=
  match product.find "a[href*=\x27customerReviews\x27]" with
  | some review_link =>
      match review_link.ariaLabel with
      | some aria_label =>
          match firstDigitCommaRun aria_label.toList with
          | some n => n
          | none => "0"
      | none => "0"
  | none => "0"

/-- The sold-count block of `_extract_product_data`: the candidate text is
kept only when it contains the word "bought". -/
def extract_sold_count (product : ListingNode) : String :=
  match product.find "span.a-size-base.a-color-secondary" with
  | some sold_el => if substringOf "bought" (pyLower sold_el.text) then sold_el.text else "N/A"
  | none => "N/A"

/-- The ordered URL selector chain of `_extract_product_data`. -/
def url_selectors : List String :=
  ["h2 a",
   "a.a-link-normal.s-no-outline",
   "a.a-link-normal[href*=\x27/dp/\x27]",
   ".s-product-image-container a",
   "a[data-asin]",
   "div[data-asin] a[href*=\x27/dp/\x27]"]

/-- Python `href.split("/ref=")[0]`: truncation at the tracking-parameter
separator. -/
def split_ref (href : String) : String :=
  String.mk (takeBefore "/ref=".toList href.toList)

/-- The selector loop computing `product_url`: a selector whose element is
missing, whose `href` is null or empty, or whose `href` lacks `/dp/` is
passed over; the first accepted `href` is truncated at `/ref=`. -/
def extract_url_go (product : ListingNode) : List String → String
  | [] => "N/A"
  | selector :: rest =>
      match product.find selector with
      | some el =>
          match el.href with
          | some href =>
              if href != "" && substringOf "/dp/" href then split_ref href
              else extract_url_go product rest
          | none => extract_url_go product rest
      | none => extract_url_go product rest

/-- The `product_url` field of `_extract_product_data`. -/
def extract_product_url (product : ListingNode) : String :=
  extract_url_go product url_selectors

/-- The image block of `_extract_product_data`: the `src` attribute when
the image selector matches (possibly null), else `"N/A"`. -/
def extract_image_url (product : ListingNode) : Option String :=
  match product.find "img.s-image" with
  | some el => el.src
  | none => some "N/A"

/-- `AmazonScraper._extract_product_data`: `none` when the title selector
finds nothing, otherwise the full record with per-field fallbacks. -/
def extract_product_data (product : ListingNode) (keyword : String) : Option ProductRecord :=
  match product.find "h2 span" with
  | none => none
  | some title_el =>
      some { title := title_el.text,
             price := format_price (safe_extract product "span.a-offscreen" "innerHTML"),
             rating := safe_extract product "span.a-icon-alt" "innerHTML",
             review_count := extract_review_count product,
             sold_count := extract_sold_count product,
             product_url := extract_product_url product,
             image_url := extract_image_url product,
             keyword := keyword }

/-- Outcome of navigating to a page (`driver.get` plus the humanizing
delay and scroll): success, a `TimeoutException`, or another
`WebDriverException`. -/
inductive NavResult
  | ok
  | timeout
  | driverError
deriving DecidableEq

/-- One result page as the scraper observes it.  `textAfterNav` is the
page source right after navigation and scrolling (read by the
post-navigation `_is_blocked` call, and by the top-level handler when
navigation itself raises `TimeoutException`); `textAtTimeout` is the page
source at the moment the listing-presence wait gives up, which may differ
because the page can re-render while the wait polls. -/
structure PageModel where
  nav : NavResult
  textAfterNav : String
  waitTimesOut : Bool
  textAtTimeout : String
  listings : List ListingNode

/-- Why the page loop of `scrape` stopped. -/
inductive ScrapeReason
  | maxReached
  | blockedPage
  | noMore
  | pageLimitDone
  | loadTimeoutBlocked
  | loadTimeoutPlain
  | webDriverError
deriving DecidableEq

/-- `AmazonScraper._scrape_page`: nothing when the cap is already met or
the listing wait times out; otherwise the first `max_products - already`
listing nodes are fed to the extractor and the failures dropped. -/
def scrape_page (max_products already : Nat) (keyword : String) (pg : PageModel) :
    List ProductRecord :=
  if max_products ≤ already then []
  else if pg.waitTimesOut then []
  else (pg.listings.take (max_products - already)).filterMap
        (fun p => extract_product_data p keyword)

/-- The page loop of `AmazonScraper.scrape`, with its surrounding
exception handlers; `acc` is `self.scraped_data`.  A navigation
`TimeoutException` reaches the top-level handler, which consults
`_is_blocked` only to choose the logged reason and returns the records
accumulated so far; any other `WebDriverException` likewise returns the
partial results. -/
def scrape_go (max_products : Nat) (keyword : String) :
    List PageModel → List ProductRecord → List ProductRecord × ScrapeReason
  | [], acc => (acc, ScrapeReason.pageLimitDone)
  | pg :: rest, acc =>
      if max_products ≤ acc.length then (acc, ScrapeReason.maxReached)
      else
        match pg.nav with
        | NavResult.timeout =>
            if is_blocked pg.textAfterNav then (acc, ScrapeReason.loadTimeoutBlocked)
            else (acc, ScrapeReason.loadTimeoutPlain)
        | NavResult.driverError => (acc, ScrapeReason.webDriverError)
        | NavResult.ok =>
            if is_blocked pg.textAfterNav then (acc, ScrapeReason.blockedPage)
            else
              let page_data := scrape_page max_products acc.length keyword pg
              if page_data.isEmpty then (acc ++ page_data, ScrapeReason.noMore)
              else scrape_go max_products keyword rest (acc ++ page_data)

/-- `AmazonScraper.scrape` on a fresh scraper (`scraped_data = []`). -/
def scrape (max_products : Nat) (keyword : String) (pages : List PageModel) :
    List ProductRecord × ScrapeReason :=
  scrape_go max_products keyword pages []

/-- One row of the `products` table (`id` and `created_at` omitted: no
claim reads them).  `product_url` is `none` for a SQL NULL. -/
structure DBRow where
  title : String
  price : String
  rating : String
  review_count : String
  sold_count : String
  product_url : Option String
  image_url : Option String
  keyword : String
deriving DecidableEq

/-- `init_db`: a fresh store is the empty table. -/
def init_db : List DBRow := []

/-- The row the INSERT of `save_to_db` builds: `product_url` becomes NULL
exactly when the record's URL is the literal `"N/A"`. -/
def mkRow (item : ProductRecord) : DBRow :=
  { title := item.title,
    price := item.price,
    rating := item.rating,
    review_count := item.review_count,
    sold_count := item.sold_count,
    product_url := if item.product_url = "N/A" then none else some item.product_url,
    image_url := item.image_url,
    keyword := item.keyword }

/-- `SELECT 1 FROM products WHERE product_url = ?` against the
connection's current (uncommitted) state. -/
def dbHasUrl (db : List DBRow) (url : String) : Bool :=
  db.any (fun row => row.product_url == some url)

/-- One INSERT against the `product_url TEXT UNIQUE` column constraint:
NULL keys are exempt (SQLite admits many NULLs under UNIQUE), a repeated
non-NULL key raises `sqlite3.IntegrityError` (`none`). -/
def insertRow (db : List DBRow) (row : DBRow) : Option (List DBRow) :=
  match row.product_url with
  | none => some (db ++ [row])
  | some u => if dbHasUrl db u then none else some (db ++ [row])

/-- The record loop of `save_to_db`: a record with a truthy URL other than
`"N/A"` that is already present is skipped; every other record is
inserted and counted.  `none` models the uncaught `IntegrityError`: the
connection is closed without commit and the whole call rolls back. -/
def save_go : List ProductRecord → List DBRow → Option (List DBRow × Nat)
  | [], db => some (db, 0)
  | item :: rest, db =>
      let url := item.product_url
      if url != "" && url != "N/A" && dbHasUrl db url then save_go rest db
      else
        match insertRow db (mkRow item) with
        | none => none
        | some db2 =>
            match save_go rest db2 with
            | none => none
            | some (dbf, n) => some (dbf, n + 1)

/-- `save_to_db`: on success the committed table and the saved count. -/
def save_to_db (data : List ProductRecord) (db : List DBRow) : Option (List DBRow × Nat) :=
  save_go data db

/-- The table after a sequence of `save_to_db` calls; a failed call leaves
the table unchanged (rollback on close without commit). -/
def run_saves : List (List ProductRecord) → List DBRow → List DBRow
  | [], db => db
  | batch :: more, db =>
      match save_to_db batch db with
      | some (db2, _) => run_saves more db2
      | none => run_saves more db

/-- No two rows of the table share a non-NULL `product_url`. -/
def NoDupUrls (db : List DBRow) : Prop :=
  db.Pairwise (fun a b => ∀ u, a.product_url = some u → b.product_url = some u → False)

/-- A title element whose visible text is empty (Selenium's `.text` is
`""` e.g. for an off-screen node): the title selector matches it. -/
def emptyTitleEl : Element :=
  { text := "", innerHTML := "", href := none, ariaLabel := none, src := none }

/-- A listing node whose only matching selector is the title selector,
with empty title text. -/
def emptyTitleNode : ListingNode :=
  { find := fun sel => if sel = "h2 span" then some emptyTitleEl else none }

/-- A title element with ordinary text. -/
def titleEl : Element :=
  { text := "Gaming Mouse", innerHTML := "Gaming Mouse", href := none, ariaLabel := none,
    src := none }

/-- A product link element carrying a `/dp/` href with a `/ref=` tracking
suffix. -/
def dpEl : Element :=
  { text := "", innerHTML := "",
    href := some "https://www.amazon.com/Gaming-Mouse/dp/B0TEST12/ref=sr_1_1",
    ariaLabel := none, src := none }

/-- A listing node with a title and an `h2 a` product link. -/
def dpNode : ListingNode :=
  { find := fun sel =>
      if sel = "h2 span" then some titleEl
      else if sel = "h2 a" then some dpEl
      else none }

/-- A page whose listing wait times out while the page has meanwhile
turned into a block page: the post-navigation source still carries the
result-container marker so `_is_blocked` passes, the source at the moment
the wait expires is a robot challenge. -/
def timeoutBlockedPage : PageModel :=
  { nav := NavResult.ok,
    textAfterNav := "div class s-search-result still loading",
    waitTimesOut := true,
    textAtTimeout := "enter the captcha to verify you are not a robot",
    listings := [] }

/-- A page whose navigation raises a `WebDriverException`. -/
def crashPage : PageModel :=
  { nav := NavResult.driverError, textAfterNav := "", waitTimesOut := false,
    textAtTimeout := "", listings := [] }

/-- A concrete scraped record with a real product URL. -/
def rec1 : ProductRecord :=
  { title := "Gaming Mouse", price := "$12.99", rating := "4.5 out of 5 stars",
    review_count := "1,234", sold_count := "N/A",
    product_url := "https://www.amazon.com/Gaming-Mouse/dp/B0TEST12",
    image_url := some "https://m.media-amazon.com/images/I/1.jpg", keyword := "mouse" }

/-- A second concrete record with a different real product URL. -/
def rec2 : ProductRecord :=
  { title := "Office Mouse", price := "$9.99", rating := "4.1 out of 5 stars",
    review_count := "87", sold_count := "N/A",
    product_url := "https://www.amazon.com/Office-Mouse/dp/B0TEST34",
    image_url := some "https://m.media-amazon.com/images/I/2.jpg", keyword := "mouse" }

/-- A record repeating `rec1`'s product URL under a different title. -/
def rec1dup : ProductRecord :=
  { title := "Gaming Mouse (listed again)", price := "$13.49", rating := "N/A",
    review_count := "0", sold_count := "N/A",
    product_url := "https://www.amazon.com/Gaming-Mouse/dp/B0TEST12",
    image_url := some "N/A", keyword := "mouse" }

/-- A record whose product URL fell back to `"N/A"`. -/
def naRec1 : ProductRecord :=
  { title := "Mystery Mouse A", price := "N/A", rating := "N/A", review_count := "0",
    sold_count := "N/A", product_url := "N/A", image_url := some "N/A", keyword := "mouse" }

/-- A second record with `"N/A"` product URL. -/
def naRec2 : ProductRecord :=
  { title := "Mystery Mouse B", price := "N/A", rating := "N/A", review_count := "0",
    sold_count := "N/A", product_url := "N/A", image_url := some "N/A", keyword := "mouse" }

/-- A record whose product URL is the empty string (falsy in Python, so
`save_to_db` skips its duplicate check, yet stores the literal `""`). -/
def emptyUrlRec1 : ProductRecord :=
  { title := "Ghost Listing A", price := "N/A", rating := "N/A", review_count := "0",
    sold_count := "N/A", product_url := "", image_url := some "N/A", keyword := "mouse" }

/-- A second record with empty product URL. -/
def emptyUrlRec2 : ProductRecord :=
  { title := "Ghost Listing B", price := "N/A", rating := "N/A", review_count := "0",
    sold_count := "N/A", product_url := "", image_url := some "N/A", keyword := "mouse" }

/-- The first chain candidate of the URL loop: the selector's element when
present, its href when non-null, kept when non-empty and containing the
`/dp/` product-detail marker. -/
def dpCandidate (product : ListingNode) (selector : String) : Option String :=
  match product.find selector with
  | some el =>
      match el.href with
      | some href => if href != "" && substringOf "/dp/" href then some href else none
      | none => none
  | none => none

/-- Written from the spec's words for C9: the first selector-chain match
whose resolved link contains `/dp/`. -/
def chainDpHref (product : ListingNode) : Option String :=
  url_selectors.findSome? (dpCandidate product)

/-- C1 fails on the code: `"Price unavailable"` contains no digit, yet
`format_price` returns it (stripped) instead of `"N/A"`. -/
theorem C1_counterexample :
    ("Price unavailable".toList.all (fun c => !c.isDigit)) = true ∧
    format_price "Price unavailable" = "Price unavailable" ∧
    "Price unavailable" ≠ "N/A" := by
  refine ⟨by decide, by decide, by decide⟩

/-- C1 (amended): `format_price` returns `"N/A"` exactly on empty or
`"N/A"` input; on any other raw string — digits or not — it returns the
stripped raw text and performs no numeric-run extraction. -/
theorem C1_amended :
    format_price "N/A" = "N/A" ∧ format_price "" = "N/A" ∧
    ∀ s : String, s ≠ "" → s ≠ "N/A" → format_price s = pyStrip s := by
  refine ⟨rfl, rfl, ?_⟩
  intro s h1 h2
  simp [format_price, h1, h2]

/-- Witness for the amended C1 at a concrete raw price string. -/
theorem C1_amended_witness : format_price " $12.99 " = "$12.99" :=
  (C1_amended.2.2 " $12.99 " (by decide) (by decide)).trans (by decide)

/-- C8: `_is_blocked` is true exactly when the lowered page text contains
a block-signature phrase, or contains neither result-container marker and
contains "robot"; in particular it fires on CAPTCHA text and not on an
ordinary result page. -/
theorem C8_is_blocked_spec :
    (∀ s : String, is_blocked s = true ↔
      ((∃ p ∈ blocked_signs, substringOf p (pyLower s) = true) ∨
       (substringOf "s-search-result" (pyLower s) = false ∧
        substringOf "s-result-item" (pyLower s) = false ∧
        substringOf "robot" (pyLower s) = true))) ∧
    is_blocked "Please complete the CAPTCHA to continue" = true ∧
    is_blocked "<span data-component-type=s-search-result>Logitech Mouse</span>" = false := by
  refine ⟨?_, by decide, by decide⟩
  intro s
  simp [is_blocked, List.any_eq_true, and_assoc]

/-- C2 fails on the code: the listing wait of `_scrape_page` times out on
a page whose source at that moment is a robot-challenge page, yet the
outcome is reported as no-more-pages without the blocking detector being
consulted (its verdict on that source is `true`). -/
theorem C2_counterexample :
    is_blocked timeoutBlockedPage.textAtTimeout = true ∧
    scrape 30 "mouse" [timeoutBlockedPage] = ([], ScrapeReason.noMore) := by
  exact ⟨by decide, by decide⟩

/-- C2 (amended): the listing-wait timeout inside `_scrape_page` is
caught there and unconditionally reported as the no-more-pages outcome,
independent of the page text at timeout time; the blocking detector is
consulted after each navigation, and by the top-level handler for a
`TimeoutException` raised by navigation itself, but not for the listing
wait. -/
theorem C2_amended (mp : Nat) (kw : String) (pg : PageModel) (rest : List PageModel)
    (acc : List ProductRecord) (hlen : acc.length < mp) :
    (pg.nav = NavResult.ok → is_blocked pg.textAfterNav = false → pg.waitTimesOut = true →
      scrape_go mp kw (pg :: rest) acc = (acc, ScrapeReason.noMore)) ∧
    (pg.nav = NavResult.timeout →
      scrape_go mp kw (pg :: rest) acc =
        (acc, if is_blocked pg.textAfterNav then ScrapeReason.loadTimeoutBlocked
              else ScrapeReason.loadTimeoutPlain)) := by
  have hnle : ¬ mp ≤ acc.length := by omega
  constructor
  · intro hnav hnb hwait
    simp [scrape_go, hnav, hnb, hnle, scrape_page, hwait]
  · intro hnav
    by_cases hb : is_blocked pg.textAfterNav
    · simp [scrape_go, hnav, hnle, hb]
    · simp [scrape_go, hnav, hnle, hb]

/-- Witness for the amended C2 on the concrete timed-out blocked page. -/
theorem C2_amended_witness :
    scrape_go 30 "mouse" [timeoutBlockedPage] [] = ([], ScrapeReason.noMore) :=
  (C2_amended 30 "mouse" timeoutBlockedPage [] [] (by decide)).1 rfl (by decide) rfl

/-- C6: two records with `"N/A"` product URL are both inserted — with a
NULL key each — whatever the prior table contents, and both are counted. -/
theorem C6_na_not_deduped (r1 r2 : ProductRecord) (db : List DBRow)
    (h1 : r1.product_url = "N/A") (h2 : r2.product_url = "N/A") :
    save_to_db [r1, r2] db = some (db ++ [mkRow r1, mkRow r2], 2) ∧
    (mkRow r1).product_url = none ∧ (mkRow r2).product_url = none := by
  have k1 : (mkRow r1).product_url = none := by simp [mkRow, h1]
  have k2 : (mkRow r2).product_url = none := by simp [mkRow, h2]
  refine ⟨?_, k1, k2⟩
  simp [save_to_db, save_go, insertRow, h1, h2, k1, k2]

/-- Witness for C6 on two concrete `"N/A"`-URL records over a fresh
table. -/
theorem C6_witness :
    save_to_db [naRec1, naRec2] init_db = some (init_db ++ [mkRow naRec1, mkRow naRec2], 2) ∧
    (mkRow naRec1).product_url = none ∧ (mkRow naRec2).product_url = none :=
  C6_na_not_deduped naRec1 naRec2 init_db rfl rfl

/-- C7: when navigation raises (timeout or other driver fault), `scrape`
returns exactly the records accumulated so far; the remaining pages never
influence the result. -/
theorem C7_partial_results (mp : Nat) (kw : String) (pg : PageModel)
    (rest : List PageModel) (acc : List ProductRecord) (h : pg.nav ≠ NavResult.ok) :
    (scrape_go mp kw (pg :: rest) acc).1 = acc := by
  cases hnav : pg.nav with
  | ok => exact absurd hnav h
  | timeout =>
      simp only [scrape_go, hnav]
      split
      · rfl
      · split <;> rfl
  | driverError =>
      simp only [scrape_go, hnav]
      split <;> rfl

/-- Witness for C7: a driver crash on the very next page still returns
the one already-accepted record. -/
theorem C7_witness : (scrape_go 30 "mouse" [crashPage] [rec1]).1 = [rec1] :=
  C7_partial_results 30 "mouse" crashPage [] [rec1] (by decide)

/-- C3 fails on the code: a node whose title element matches but carries
empty text is emitted as a record with empty title (`_extract_product_data`
only checks element presence, not text nonemptiness). -/
theorem C3_counterexample :
    extract_product_data emptyTitleNode "kw" =
      some { title := "", price := "N/A", rating := "N/A", review_count := "0",
             sold_count := "N/A", product_url := "N/A", image_url := some "N/A",
             keyword := "kw" } ∧
    ("" : String).length = 0 := ⟨by decide, rfl⟩

/-- C3 (amended): a record is emitted exactly when the title selector
matches; the emitted title is the matched element's text, which may be
empty; every other field is present, with its default (`"N/A"`, `"0"` for
the review count) when its selectors all fail — the schema is total. -/
theorem C3_amended (node : ListingNode) (kw : String) :
    ((extract_product_data node kw).isSome ↔ (node.find "h2 span").isSome) ∧
    (∀ el : Element, node.find "h2 span" = some el →
      (∀ sel : String, sel ≠ "h2 span" → node.find sel = none) →
      extract_product_data node kw =
        some { title := el.text, price := "N/A", rating := "N/A", review_count := "0",
               sold_count := "N/A", product_url := "N/A", image_url := some "N/A",
               keyword := kw }) := by
  constructor
  · cases h : node.find "h2 span" <;> simp [extract_product_data, h]
  · intro el hel hother
    have h1 : node.find "span.a-offscreen" = none := hother _ (by decide)
    have h2 : node.find "span.a-icon-alt" = none := hother _ (by decide)
    have h3 : node.find "a[href*=\x27customerReviews\x27]" = none := hother _ (by decide)
    have h4 : node.find "span.a-size-base.a-color-secondary" = none := hother _ (by decide)
    have h5 : node.find "h2 a" = none := hother _ (by decide)
    have h6 : node.find "a.a-link-normal.s-no-outline" = none := hother _ (by decide)
    have h7 : node.find "a.a-link-normal[href*=\x27/dp/\x27]" = none := hother _ (by decide)
    have h8 : node.find ".s-product-image-container a" = none := hother _ (by decide)
    have h9 : node.find "a[data-asin]" = none := hother _ (by decide)
    have h10 : node.find "div[data-asin] a[href*=\x27/dp/\x27]" = none := hother _ (by decide)
    have h11 : node.find "img.s-image" = none := hother _ (by decide)
    simp [extract_product_data, hel, safe_extract, extract_review_count, extract_sold_count,
          extract_product_url, url_selectors, extract_url_go, extract_image_url, format_price,
          h1, h2, h3, h4, h5, h6, h7, h8, h9, h10, h11]

/-- Witness for the amended C3 on the concrete empty-title node. -/
theorem C3_amended_witness :
    extract_product_data emptyTitleNode "mouse" =
      some { title := "", price := "N/A", rating := "N/A", review_count := "0",
             sold_count := "N/A", product_url := "N/A", image_url := some "N/A",
             keyword := "mouse" } :=
  (C3_amended emptyTitleNode "mouse").2 emptyTitleEl rfl
    (fun sel h => by simp [emptyTitleNode, h])

/-- Per-page cap: `_scrape_page` never yields more than
`max_products - already` records (it slices the listing list first). -/
theorem scrape_page_length_le (mp already : Nat) (kw : String) (pg : PageModel) :
    (scrape_page mp already kw pg).length ≤ mp - already := by
  unfold scrape_page
  split
  · simp
  · split
    · simp
    · exact le_trans (List.length_filterMap_le _ _)
        (by rw [List.length_take]; exact Nat.min_le_left _ _)

/-- The page loop preserves the bound on accepted records. -/
theorem scrape_go_length_le (mp : Nat) (kw : String) (pages : List PageModel) :
    ∀ acc : List ProductRecord, acc.length ≤ mp →
      ((scrape_go mp kw pages acc).1).length ≤ mp := by
  induction pages with
  | nil => intro acc h; exact h
  | cons pg rest ih =>
      intro acc h
      unfold scrape_go
      split
      · exact h
      · split
        · split <;> exact h
        · exact h
        · split
          · exact h
          · have hacc2 : (acc ++ scrape_page mp acc.length kw pg).length ≤ mp := by
              have hp := scrape_page_length_le mp acc.length kw pg
              rw [List.length_append]
              omega
            dsimp only
            split
            · exact hacc2
            · exact ih _ hacc2

/-- C4: per-page extraction consumes at most `max_products` minus the
already-accepted count, and a whole `scrape` run never accepts more than
`max_products` records. -/
theorem C4_max_products_cap :
    (∀ (mp already : Nat) (kw : String) (pg : PageModel),
       (scrape_page mp already kw pg).length ≤ mp - already) ∧
    (∀ (mp : Nat) (kw : String) (pages : List PageModel),
       ((scrape mp kw pages).1).length ≤ mp) :=
  ⟨scrape_page_length_le,
   fun mp kw pages => scrape_go_length_le mp kw pages [] (Nat.zero_le mp)⟩

/-- The URL selector loop agrees with first-accepted-candidate-then-
truncate on any selector list. -/
theorem extract_url_go_eq (product : ListingNode) (sels : List String) :
    extract_url_go product sels =
      (sels.findSome? (dpCandidate product)).elim "N/A" split_ref := by
  induction sels with
  | nil => rfl
  | cons selector rest ih =>
      simp only [extract_url_go, List.findSome?]
      cases hf : product.find selector with
      | none => simpa [dpCandidate, hf] using ih
      | some el =>
          cases hh : el.href with
          | none => simpa [dpCandidate, hf, hh] using ih
          | some href =>
              by_cases hc : (href != "" && substringOf "/dp/" href) = true
              · simp [dpCandidate, hf, hh, hc]
              · simp only [Bool.not_eq_true] at hc
                simpa [dpCandidate, hf, hh, hc] using ih

/-- C9: the extracted `product_url` is the first selector-chain match
whose href contains `/dp/`, truncated at `/ref=`, and `"N/A"` when no
chain match has a `/dp/` link; the emitted record carries exactly this
value. -/
theorem C9_product_url (product : ListingNode) (kw : String) :
    (extract_product_url product = (chainDpHref product).elim "N/A" split_ref) ∧
    (∀ r : ProductRecord, extract_product_data product kw = some r →
      r.product_url = extract_product_url product) := by
  constructor
  · exact extract_url_go_eq product url_selectors
  · intro r hr
    unfold extract_product_data at hr
    cases hf : product.find "h2 span" with
    | none => rw [hf] at hr; exact absurd hr (by simp)
    | some el =>
        rw [hf] at hr
        injection hr with h
        subst h
        rfl

/-- Witness for C9 on a node whose `h2 a` link has a `/dp/` href with a
`/ref=` tracking suffix. -/
theorem C9_witness :
    (extract_product_url dpNode = (chainDpHref dpNode).elim "N/A" split_ref) ∧
    ({ title := "Gaming Mouse", price := "N/A", rating := "N/A", review_count := "0",
       sold_count := "N/A",
       product_url := "https://www.amazon.com/Gaming-Mouse/dp/B0TEST12",
       image_url := some "N/A", keyword := "mouse" } : ProductRecord).product_url =
      extract_product_url dpNode :=
  ⟨(C9_product_url dpNode "mouse").1,
   (C9_product_url dpNode "mouse").2 _ (by decide)⟩

/-- The duplicate check distributes over table concatenation. -/
theorem dbHasUrl_append (db1 db2 : List DBRow) (u : String) :
    dbHasUrl (db1 ++ db2) u = (dbHasUrl db1 u || dbHasUrl db2 u) := by
  simp [dbHasUrl]

/-- A row present in the table with the queried key makes the duplicate
check fire. -/
theorem dbHasUrl_of_mem (db : List DBRow) (row : DBRow) (u : String)
    (hm : row ∈ db) (hu : row.product_url = some u) : dbHasUrl db u = true := by
  simp only [dbHasUrl, List.any_eq_true]
  exact ⟨row, hm, by simp [hu]⟩

/-- A successful INSERT appends exactly the new row. -/
theorem insertRow_some (db db2 : List DBRow) (row : DBRow)
    (h : insertRow db row = some db2) : db2 = db ++ [row] := by
  unfold insertRow at h
  split at h
  · exact (Option.some.inj h).symm
  · split at h
    · exact absurd h (by simp)
    · exact (Option.some.inj h).symm

/-- A fresh batch — no `"N/A"` URLs, pairwise-distinct URLs, none already
stored — is inserted in full, each record counted once. -/
theorem save_go_fresh (records : List ProductRecord) :
    ∀ db : List DBRow,
      (∀ r ∈ records, r.product_url ≠ "N/A") →
      (records.map ProductRecord.product_url).Nodup →
      (∀ r ∈ records, dbHasUrl db r.product_url = false) →
      save_go records db = some (db ++ records.map mkRow, records.length) := by
  induction records with
  | nil => intro db _ _ _; simp [save_go]
  | cons item rest ih =>
      intro db hna hnd hfresh
      have hfitem : dbHasUrl db item.product_url = false := hfresh item (by simp)
      have hnaitem : item.product_url ≠ "N/A" := hna item (by simp)
      have hkey : (mkRow item).product_url = some item.product_url := by
        simp [mkRow, hnaitem]
      have hnotin : item.product_url ∉ rest.map ProductRecord.product_url :=
        (List.nodup_cons.mp hnd).1
      have hfresh2 : ∀ r ∈ rest, dbHasUrl (db ++ [mkRow item]) r.product_url = false := by
        intro r hr
        have hf := hfresh r (List.mem_cons_of_mem _ hr)
        have hne : item.product_url ≠ r.product_url := by
          intro he
          exact hnotin (he ▸ List.mem_map_of_mem ProductRecord.product_url hr)
        rw [dbHasUrl_append, hf]
        simp [dbHasUrl, hkey, hne]
      have hrec := ih (db ++ [mkRow item]) (fun r hr => hna r (List.mem_cons_of_mem _ hr))
        (List.nodup_cons.mp hnd).2 hfresh2
      simp [save_go, hfitem, insertRow, hkey, hrec]

/-- A batch of records whose URLs are all real and all already stored is
skipped in full. -/
theorem save_go_all_dup (records : List ProductRecord) (db : List DBRow) :
    (∀ r ∈ records, r.product_url ≠ "" ∧ r.product_url ≠ "N/A" ∧
       dbHasUrl db r.product_url = true) →
    save_go records db = some (db, 0) := by
  induction records with
  | nil => intro _; simp [save_go]
  | cons item rest ih =>
      intro h
      obtain ⟨h1, h2, h3⟩ := h item (by simp)
      have cond : (item.product_url != "" && item.product_url != "N/A" &&
                   dbHasUrl db item.product_url) = true := by
        simp [Bool.and_eq_true, bne_iff_ne, h1, h2, h3]
      simp only [save_go, cond, if_true]
      exact ih (fun r hr => h r (List.mem_cons_of_mem _ hr))

/-- A successful call grows the table by exactly the returned count. -/
theorem save_go_length (data : List ProductRecord) :
    ∀ (db0 db1 : List DBRow) (n : Nat), save_go data db0 = some (db1, n) →
      db1.length = db0.length + n := by
  induction data with
  | nil =>
      intro db0 db1 n h
      simp only [save_go, Option.some.injEq, Prod.mk.injEq] at h
      obtain ⟨he1, he2⟩ := h
      subst he1
      omega
  | cons item rest ih =>
      intro db0 db1 n h
      simp only [save_go] at h
      split at h
      · exact ih db0 db1 n h
      · cases hins : insertRow db0 (mkRow item) with
        | none => rw [hins] at h; cases h
        | some dbi =>
            rw [hins] at h
            dsimp only at h
            cases hrec : save_go rest dbi with
            | none => rw [hrec] at h; cases h
            | some p =>
                obtain ⟨dbf, m⟩ := p
                rw [hrec] at h
                dsimp only at h
                simp only [Option.some.injEq, Prod.mk.injEq] at h
                obtain ⟨he1, he2⟩ := h
                have hdi : dbi = db0 ++ [mkRow item] := insertRow_some _ _ _ hins
                have hlen := ih dbi dbf m hrec
                subst he1
                rw [hdi] at hlen
                simp only [List.length_append, List.length_cons, List.length_nil] at hlen
                omega

/-- C5: a set of records with pairwise-distinct real (non-empty,
non-`"N/A"`) URLs none of which is stored yet is saved in full on the
first call and skipped in full on the second; in general a successful
call returns exactly the number of rows it inserted. -/
theorem C5_dedup_idempotent (records : List ProductRecord) (db : List DBRow)
    (hurl : ∀ r ∈ records, r.product_url ≠ "" ∧ r.product_url ≠ "N/A")
    (hnodup : (records.map ProductRecord.product_url).Nodup)
    (hfresh : ∀ r ∈ records, dbHasUrl db r.product_url = false) :
    save_to_db records db = some (db ++ records.map mkRow, records.length) ∧
    save_to_db records (db ++ records.map mkRow) = some (db ++ records.map mkRow, 0) ∧
    (∀ (data : List ProductRecord) (db0 db1 : List DBRow) (n : Nat),
       save_to_db data db0 = some (db1, n) → db1.length = db0.length + n) := by
  refine ⟨?_, ?_, ?_⟩
  · exact save_go_fresh records db (fun r hr => (hurl r hr).2) hnodup hfresh
  · apply save_go_all_dup
    intro r hr
    refine ⟨(hurl r hr).1, (hurl r hr).2, ?_⟩
    have hmem : mkRow r ∈ db ++ records.map mkRow :=
      List.mem_append_right _ (List.mem_map_of_mem _ hr)
    have hkey : (mkRow r).product_url = some r.product_url := by
      simp [mkRow, (hurl r hr).2]
    exact dbHasUrl_of_mem _ _ _ hmem hkey
  · intro data db0 db1 n h
    exact save_go_length data db0 db1 n h

/-- Witness for C5: two concrete records with distinct `/dp/` URLs over a
fresh table. -/
theorem C5_witness :
    save_to_db [rec1, rec2] init_db =
      some (init_db ++ [rec1, rec2].map mkRow, ([rec1, rec2] : List ProductRecord).length) ∧
    save_to_db [rec1, rec2] (init_db ++ [rec1, rec2].map mkRow) =
      some (init_db ++ [rec1, rec2].map mkRow, 0) :=
  ⟨(C5_dedup_idempotent [rec1, rec2] init_db (by decide) (by decide) (by decide)).1,
   (C5_dedup_idempotent [rec1, rec2] init_db (by decide) (by decide) (by decide)).2.1⟩

/-- A successful INSERT keeps non-NULL keys unique: the constraint admits
the row only when its key is NULL or not yet present. -/
theorem insertRow_preserves (db db2 : List DBRow) (row : DBRow)
    (h : insertRow db row = some db2) (hd : NoDupUrls db) : NoDupUrls db2 := by
  have hdb2 : db2 = db ++ [row] := insertRow_some db db2 row h
  subst hdb2
  unfold NoDupUrls at hd ⊢
  rw [List.pairwise_append]
  refine ⟨hd, List.pairwise_singleton _ _, ?_⟩
  intro a ha b hb u hau hbu
  rw [List.mem_singleton] at hb
  rcases hb with rfl
  unfold insertRow at h
  cases hk : b.product_url with
  | none => rw [hk] at hbu; cases hbu
  | some v =>
      rw [hk] at h hbu
      dsimp only at h
      injection hbu with he
      subst he
      split at h
      · cases h
      · rename_i hnot
        exact hnot (dbHasUrl_of_mem db a v ha hau)

/-- The record loop of `save_to_db` preserves uniqueness of non-NULL
keys whenever it succeeds. -/
theorem save_go_preserves (data : List ProductRecord) :
    ∀ (db db2 : List DBRow) (n : Nat), save_go data db = some (db2, n) →
      NoDupUrls db → NoDupUrls db2 := by
  induction data with
  | nil =>
      intro db db2 n h hd
      simp only [save_go, Option.some.injEq, Prod.mk.injEq] at h
      rw [← h.1]
      exact hd
  | cons item rest ih =>
      intro db db2 n h hd
      simp only [save_go] at h
      split at h
      · exact ih db db2 n h hd
      · cases hins : insertRow db (mkRow item) with
        | none => rw [hins] at h; cases h
        | some dbi =>
            rw [hins] at h
            dsimp only at h
            cases hrec : save_go rest dbi with
            | none => rw [hrec] at h; cases h
            | some p =>
                obtain ⟨dbf, m⟩ := p
                rw [hrec] at h
                dsimp only at h
                simp only [Option.some.injEq, Prod.mk.injEq] at h
                have hdi : NoDupUrls dbi := insertRow_preserves db dbi (mkRow item) hins hd
                rw [← h.1]
                exact ih dbi dbf m hrec hdi

/-- Any sequence of save calls preserves uniqueness of non-NULL keys. -/
theorem run_saves_preserves (batches : List (List ProductRecord)) :
    ∀ db : List DBRow, NoDupUrls db → NoDupUrls (run_saves batches db) := by
  induction batches with
  | nil => intro db hd; exact hd
  | cons batch more ih =>
      intro db hd
      simp only [run_saves]
      cases hs : save_to_db batch db with
      | none => exact ih db hd
      | some p =>
          obtain ⟨db2, n⟩ := p
          exact ih db2 (save_go_preserves batch db db2 n hs hd)

/-- C10 fails on the code: a call repeating the empty-string URL — a URL
different from `"N/A"` — skips the duplicate check (Python's falsy test),
attempts both inserts, and dies on the UNIQUE constraint: nothing is
inserted and nothing counted. -/
theorem C10_counterexample :
    emptyUrlRec1.product_url ≠ "N/A" ∧
    emptyUrlRec2.product_url = emptyUrlRec1.product_url ∧
    save_to_db [emptyUrlRec1, emptyUrlRec2] init_db = none := by
  exact ⟨by decide, rfl, by decide⟩

/-- C10 (amended): after any sequence of persist calls from an
initialized store no two stored rows share a non-null `product_url`; and
a single call whose input repeats one non-empty, non-`"N/A"` URL not yet
stored inserts that URL exactly once and counts it once (for the empty
string the existence check is skipped and the storage constraint fails
the call instead). -/
theorem C10_amended :
    (∀ batches : List (List ProductRecord), NoDupUrls (run_saves batches init_db)) ∧
    (∀ (r1 r2 : ProductRecord) (db : List DBRow),
       r2.product_url = r1.product_url → r1.product_url ≠ "" → r1.product_url ≠ "N/A" →
       dbHasUrl db r1.product_url = false →
       save_to_db [r1, r2] db = some (db ++ [mkRow r1], 1)) := by
  constructor
  · intro batches
    exact run_saves_preserves batches init_db (List.Pairwise.nil)
  · intro r1 r2 db h21 h1e h1na hfr
    have hkey : (mkRow r1).product_url = some r1.product_url := by simp [mkRow, h1na]
    have hhas : dbHasUrl (db ++ [mkRow r1]) r1.product_url = true :=
      dbHasUrl_of_mem _ _ _ (List.mem_append_right _ (by simp)) hkey
    simp [save_to_db, save_go, insertRow, hkey, hfr, h21, h1e, h1na, hhas, bne_iff_ne]

/-- Witness for the amended C10: the same `/dp/` URL listed twice in one
batch is stored and counted once. -/
theorem C10_amended_witness :
    save_to_db [rec1, rec1dup] init_db = some (init_db ++ [mkRow rec1], 1) :=
  C10_amended.2 rec1 rec1dup init_db rfl (by decide) (by decide) rfl

end Scraper
